import Mathlib

/-
Verification of the FPL chips optimizer squad snapshot and recommendation
engine.  The data model and operations are embedded from the repository
sources: the TypeScript fragments of server/services/analysisEngine.ts that
appear verbatim inside src/fix_analysis_block.py (the snapshot builder's
sellPrice fallback, the bench/starter split, the empty-filteredSquad
short-circuit and the maxSellValue computation), the patch script
src/fix_analysis_block.py itself, and the question-list builder in
src/scripts/run_ai_copilot_test.py.  Components whose implementation is not
part of the sources (the recommendation generator, the risk assessor, the
grounding validator, and the teamValue / filteredSquad / maxPlayerPrice
wiring) are modelled from the specification; each such definition carries a
doc comment saying so.

Money is modelled in tenths of the display currency unit (the fixed-point
representation the player catalog uses); the TypeScript division by 10 that
converts tenths into display units is represented by `toCurrency`, and the
theorems that speak about display-unit amounts state both forms.
-/

namespace FPL

/-- A catalog player record: identifier, price in tenths of the currency
unit (`now_cost`), position class (`element_type`), club (`team`), form
metric, upcoming fixture-difficulty ratings, and ownership percentage. -/
structure Player where
  id : Nat
  now_cost : Nat
  element_type : Nat
  team : Nat
  form : Int
  fixtures : List Nat
  ownership : Nat
deriving DecidableEq, Repr

/-- A raw squad pick: player identifier (`element`), squad slot (1-15,
slots 12-15 are the bench), the optional selling-price override in tenths,
and the captaincy flag. -/
structure SquadPick where
  element : Nat
  position : Nat
  selling_price : Option Nat
  is_captain : Bool
deriving DecidableEq, Repr

/-- A pick joined with its catalog record (TypeScript spread
`{...pick, player, sellPrice}`); `player` is `none` when the catalog has no
matching record, and `sellPrice` is stored in tenths. -/
structure ResolvedPick where
  element : Nat
  position : Nat
  selling_price : Option Nat
  is_captain : Bool
  player : Option Player
  sellPrice : Nat
deriving DecidableEq, Repr

/-- JavaScript `x || y` on an optional number: `undefined` and `0` are
falsy, any other value short-circuits. -/
def jsOrNat (x : Option Nat) (y : Nat) : Nat :=
  match x with
  | none => y
  | some v => if v = 0 then y else v

/-- The sell-price fallback chain of the snapshot builder, in tenths:
`pick.selling_price || player?.now_cost || 0` from the embedded TypeScript
(the final `/ 10` display conversion is `toCurrency`). -/
def sellPriceTenths (selling_price : Option Nat) (cost : Option Nat) : Nat :=
  jsOrNat selling_price (jsOrNat cost 0)

/-- Conversion from fixed-point tenths to display currency units: the
TypeScript `/ 10`. -/
def toCurrency (tenths : Nat) : ℚ := (tenths : ℚ) / 10

/-- One step of the snapshot builder, from the TypeScript embedded in
src/fix_analysis_block.py: look the pick's `element` up in the catalog and
attach the fallback sell price.  Missing players resolve to `none`; no
failure path exists. -/
def resolvePick (allPlayers : List Player) (pick : SquadPick) : ResolvedPick :=
  let player := allPlayers.find? (fun p => p.id == pick.element)
  { element := pick.element
    position := pick.position
    selling_price := pick.selling_price
    is_captain := pick.is_captain
    player := player
    sellPrice := sellPriceTenths pick.selling_price (player.map (·.now_cost)) }

/-- The snapshot builder: `userSquad.picks.map(pick => ...)` from the
embedded TypeScript.  Output preserves input order. -/
def currentSquad (allPlayers : List Player) (picks : List SquadPick) : List ResolvedPick :=
  picks.map (resolvePick allPlayers)

/-- The collected data-integrity warnings: one entry (the missing player
identifier) per pick whose catalog lookup failed, modelling the
`console.warn` calls of the embedded TypeScript as a structured list. -/
def dataIntegrityWarnings (allPlayers : List Player) (picks : List SquadPick) : List Nat :=
  (picks.filter (fun pk => (allPlayers.find? (fun p => p.id == pk.element)).isNone)).map
    (·.element)

/-- Modelled from the spec: the usable subset of the squad, the resolved
picks whose player was found in the catalog (the `filteredSquad` referenced
by the embedded TypeScript, whose defining line is not part of the
sources). -/
def filteredSquad (squad : List ResolvedPick) : List ResolvedPick :=
  squad.filter (fun p => p.player.isSome)

/-- Modelled from the spec: team value is the sum of sell prices over all
resolved picks, unresolved ones included via their zero/override
fallback. -/
def teamValue (squad : List ResolvedPick) : Nat :=
  (squad.map (·.sellPrice)).sum

/-- The bench slice of the usable squad: `filteredSquad.filter(p =>
p.position > 11)` from the embedded TypeScript. -/
def benchPlayers (squad : List ResolvedPick) : List ResolvedPick :=
  squad.filter (fun p => 11 < p.position)

/-- The starter slice of the usable squad: `filteredSquad.filter(p =>
p.position <= 11)` from the embedded TypeScript. -/
def starterPlayers (squad : List ResolvedPick) : List ResolvedPick :=
  squad.filter (fun p => p.position ≤ 11)

/-- The most valuable sellable asset:
`Math.max(...filteredSquad.map(p => p.sellPrice))` from the embedded
TypeScript.  It is only reached on a non-empty list (the empty case
short-circuits earlier), so the `Math.max()` = -Infinity corner is
represented by the irrelevant default 0. -/
def maxSellValue (squad : List ResolvedPick) : Nat :=
  ((squad.map (·.sellPrice)).maximum).getD 0

/-- The four risk labels; `insufficientData` renders as the TypeScript
string "insufficient-data". -/
inductive RiskLabel where
  | insufficientData
  | low
  | medium
  | high
deriving DecidableEq, Repr

/-- Modelled from the spec: the club concentration threshold (at most 3
picks per club is safe), a named tunable constant. -/
def concentrationThreshold : Nat := 3

/-- Modelled from the spec: how many starters facing a hard next fixture
count as clustering risk, a named tunable constant. -/
def clusteringThreshold : Nat := 5

/-- Modelled from the spec: fixture-difficulty ratings at or above this
cutoff count as hard. -/
def hardFixtureCutoff : Nat := 4

/-- The clubs of the resolved members of a squad, with multiplicity. -/
def squadClubs (squad : List ResolvedPick) : List Nat :=
  (squad.filterMap (·.player)).map (·.team)

/-- Number of squad members belonging to club `t`. -/
def clubCount (squad : List ResolvedPick) (t : Nat) : Nat :=
  (squadClubs squad).count t

/-- Modelled from the spec: concentration risk — some club owns more than
`concentrationThreshold` picks of the usable squad. -/
def concentrationRisk (squad : List ResolvedPick) : Bool :=
  (squadClubs squad).any (fun t => concentrationThreshold < clubCount squad t)

/-- Whether a resolved pick's player faces a hard next fixture. -/
def hardNextFixture (r : ResolvedPick) : Bool :=
  match r.player with
  | some pl => hardFixtureCutoff ≤ pl.fixtures.headD 0
  | none => false

/-- Modelled from the spec: fixture-clustering risk — more than
`clusteringThreshold` starters face a hard next fixture simultaneously. -/
def clusteringRisk (squad : List ResolvedPick) : Bool :=
  clusteringThreshold < ((starterPlayers squad).filter hardNextFixture).length

/-- Modelled from the spec: bench-depth risk — the bench's sell value is
below a tenth of the squad's total sell value. -/
def benchDepthRisk (squad : List ResolvedPick) : Bool :=
  10 * teamValue (benchPlayers squad) < teamValue squad

/-- The combined risk signal count. -/
def riskScore (squad : List ResolvedPick) : Nat :=
  (if concentrationRisk squad then 1 else 0)
    + (if clusteringRisk squad then 1 else 0)
    + (if benchDepthRisk squad then 1 else 0)

/-- Modelled from the spec: the Risk Assessor, a pure total classifier of
the usable squad; `insufficientData` is reserved for the empty usable
squad, and otherwise the label grows with the number of active risk
signals. -/
def assess (squad : List ResolvedPick) : RiskLabel :=
  if squad.isEmpty then .insufficientData
  else if riskScore squad = 0 then .low
  else if riskScore squad = 1 then .medium
  else .high

/-- Severity order of the risk labels. -/
def labelRank : RiskLabel → Nat
  | .insufficientData => 0
  | .low => 1
  | .medium => 2
  | .high => 3

/-- A transfer recommendation entry: outgoing squad member, incoming
catalog player, and the price difference in tenths (incoming price minus
outgoing sell price, as an integer since downgrades are negative). -/
structure Upgrade where
  outgoing : ResolvedPick
  incoming : Player
  priceDelta : Int
deriving DecidableEq, Repr

/-- The player identifiers already present in the usable squad. -/
def squadPlayerIds (squad : List ResolvedPick) : List Nat :=
  squad.filterMap (fun r => r.player.map (·.id))

/-- Whether the incoming candidate plays the same position class as the
outgoing member's player. -/
def positionMatches (outgoing : ResolvedPick) (c : Player) : Bool :=
  match outgoing.player with
  | some op => c.element_type == op.element_type
  | none => false

/-- Whether accepting `c` for `outgoing` keeps the squad within the
3-per-club cap: after removing the outgoing member, the incoming club must
have room. -/
def clubCapRoom (squad : List ResolvedPick) (outgoing : ResolvedPick) (c : Player) : Bool :=
  clubCount (squad.erase outgoing) c.team + 1 ≤ concentrationThreshold

/-- Modelled from the spec: the legality filter of the Recommendation
Generator — affordable under `maxPlayerPrice`, position-legal, not already
in the squad, and club-cap-legal. -/
def isLegalCandidate (squad : List ResolvedPick) (maxPlayerPrice : Nat)
    (outgoing : ResolvedPick) (c : Player) : Bool :=
  (c.now_cost ≤ maxPlayerPrice) && positionMatches outgoing c
    && !((squadPlayerIds squad).contains c.id) && clubCapRoom squad outgoing c

/-- Modelled from the spec: the candidate ranking for bench upgrades, a
composite of form and upcoming fixture ease (a tunable policy, not part of
the contract). -/
def benchScore (c : Player) : Int :=
  c.form - ((c.fixtures.take 3).sum : Int)

/-- Modelled from the spec: the candidate ranking for starter targets,
biased toward the immediate fixture (a tunable policy, not part of the
contract). -/
def starterScore (c : Player) : Int :=
  2 * c.form - ((c.fixtures.take 1).sum : Int)

/-- The legal candidates of one outgoing member. -/
def legalCandidates (catalog : List Player) (squad : List ResolvedPick)
    (maxPlayerPrice : Nat) (outgoing : ResolvedPick) : List Player :=
  catalog.filter (isLegalCandidate squad maxPlayerPrice outgoing)

/-- Modelled from the spec: the top-ranked legal candidate for one outgoing
member, if any. -/
def bestUpgradeFor (catalog : List Player) (squad : List ResolvedPick)
    (maxPlayerPrice : Nat) (score : Player → Int) (outgoing : ResolvedPick) : Option Upgrade :=
  ((legalCandidates catalog squad maxPlayerPrice outgoing).argmax score).map
    (fun c => ⟨outgoing, c, (c.now_cost : Int) - (outgoing.sellPrice : Int)⟩)

/-- Modelled from the spec: the Recommendation Generator — one best legal
candidate per bench member and per starter; members without a legal
improvement contribute nothing, and both lists are always present (empty
when nothing qualifies). -/
def generate (squad : List ResolvedPick) (catalog : List Player)
    (maxPlayerPrice : Nat) : List Upgrade × List Upgrade :=
  ((benchPlayers squad).filterMap (bestUpgradeFor catalog squad maxPlayerPrice benchScore),
   (starterPlayers squad).filterMap (bestUpgradeFor catalog squad maxPlayerPrice starterScore))

/-- The analysis result returned by the Valuation & Budget Calculator, the
field set of the TypeScript return object. -/
structure AnalysisResult where
  bank : Nat
  teamValue : Nat
  freeTransfers : Nat
  nextDeadline : Nat
  maxPlayerPrice : Nat
  benchUpgrades : List Upgrade
  starterTargets : List Upgrade
  riskAssessment : RiskLabel
deriving DecidableEq, Repr

/-- The Valuation & Budget Calculator.  The empty-`filteredSquad`
short-circuit returning the minimal insufficient-data result is the
TypeScript embedded in src/fix_analysis_block.py; the non-empty branch
(`maxPlayerPrice = bank + maxSellValue`, recommendation and risk wiring) is
modelled from the spec, with `maxSellValue` itself from the embedded
TypeScript. -/
def compute (resolved : List ResolvedPick) (catalog : List Player)
    (bank freeTransfers nextDeadline : Nat) : AnalysisResult :=
  let tv := teamValue resolved
  let usable := filteredSquad resolved
  if usable.isEmpty then
    { bank := bank
      teamValue := tv
      freeTransfers := freeTransfers
      nextDeadline := nextDeadline
      maxPlayerPrice := bank
      benchUpgrades := []
      starterTargets := []
      riskAssessment := .insufficientData }
  else
    let maxPlayerPrice := bank + maxSellValue usable
    let recs := generate usable catalog maxPlayerPrice
    { bank := bank
      teamValue := tv
      freeTransfers := freeTransfers
      nextDeadline := nextDeadline
      maxPlayerPrice := maxPlayerPrice
      benchUpgrades := recs.1
      starterTargets := recs.2
      riskAssessment := assess usable }

/-- A grounding violation kind, one per rejection rule of the Response
Grounding Validator. -/
inductive ViolationKind where
  | unknownEntity
  | staleGameweek
  | currencyEncoding
  | missingCurrency
deriving DecidableEq, Repr

/-- The validator verdict: the answer is accepted exactly when no violation
was found. -/
structure ValidationResult where
  accepted : Bool
  violations : List ViolationKind
deriving DecidableEq, Repr

/-- The correctly encoded currency symbol, code point U+00A3. -/
def poundChar : Char := Char.ofNat 163

/-- The mis-encoded currency signature the test harness checks for: the
UTF-8 bytes of the pound sign decoded once more as Latin-1, yielding the
two code points U+00C2 U+00A3 ("A-circumflex, pound"). -/
def garbledPound : List Char := [Char.ofNat 194, Char.ofNat 163]

/-- Whether an answer text contains the mis-encoded multi-byte currency
sequence. -/
def hasGarbledCurrency (text : List Char) : Bool :=
  decide (garbledPound <:+: text)

/-- The extraction of entities and gameweek references from an answer text,
supplied to the validator (the concrete text scanner is outside the
sources, so the validator is stated over its results). -/
structure AnswerReading where
  text : List Char
  mentionedNames : List String
  mentionedGameweeks : List Nat
  priceRequested : Bool
deriving DecidableEq, Repr

/-- Modelled from the spec: the Response Grounding Validator — reject an
answer that mentions a player name outside the licensed set (squad plus
recommendations), references a gameweek outside the valid window, contains
the mis-encoded currency sequence, or omits currency formatting where a
price was requested.  Pure and stateless; `accepted` is false exactly when
a violation is recorded. -/
def validate (reading : AnswerReading) (licensedNames : List String)
    (windowLo windowHi : Nat) : ValidationResult :=
  let vs :=
    (if reading.mentionedNames.any (fun n => !(licensedNames.contains n)) then
      [ViolationKind.unknownEntity] else [])
    ++ (if reading.mentionedGameweeks.any (fun g => g < windowLo || windowHi < g) then
      [ViolationKind.staleGameweek] else [])
    ++ (if hasGarbledCurrency reading.text then [ViolationKind.currencyEncoding] else [])
    ++ (if reading.priceRequested && !(reading.text.contains poundChar) then
      [ViolationKind.missingCurrency] else [])
  { accepted := vs.isEmpty, violations := vs }


def analysis_focus : List String := [
  "clean sheets",
  "captaincy choices",
  "bench depth",
  "rotation risks",
  "double gameweek preparation",
  "price rise potential",
  "premium balance",
  "midfield form",
  "defensive stability",
  "attacking upside",
  "fixture swings",
  "bench boost readiness"
]

def transfer_scenarios : List (String × String × String) := [
  ("sell Watkins", "buy Isak", "chasing Newcastle\x27s fixtures"),
  ("move out Salah", "bring in Son", "budget reallocation"),
  ("downgrade a defender", "upgrade a forward", "improve goal threat"),
  ("replace injured striker", "sign a differential", "gain rank"),
  ("swap out budget midfielder", "bring in Palmer", "capitalise on form"),
  ("remove an underperforming premium", "add Saka", "stability"),
  ("ship a bench defender", "bring in Porro", "attacking returns"),
  ("free up cash", "buy Haaland", "captaincy security"),
  ("replace goalkeeper", "add Areola", "save funds"),
  ("trade Semenyo", "recruit Solanke", "fixture swing"),
  ("remove double up", "spread risk", "mini-league pressure"),
  ("sell suspended player", "bring in a starter", "avoid blanks")
]

def chip_scenarios : List String := [
  "Is Gameweek 8 a good time for my wildcard?",
  "Should I hold triple captain for a confirmed double gameweek?",
  "Evaluate using bench boost right after wildcard.",
  "Compare free hit in a blank versus a double gameweek.",
  "When should I line up the second wildcard if I already used the first?",
  "Assess triple captain options for a premium forward in a single gameweek.",
  "Judge whether to free hit during heavy European rotation weeks.",
  "Outline a plan to pair wildcard and bench boost effectively.",
  "How soon should I schedule bench boost after building value?",
  "What chip strategy fits a team chasing top 50k from mid-table position?"
]

def fixture_scenarios : List String := [
  "Rate Aston Villa\x27s next five fixtures for attack and defence.",
  "How tough is Brentford\x27s run from Gameweek 7 to 11?",
  "Spot fixture swings that benefit budget defenders soon.",
  "Which teams have back-to-back away matches with low FDR?",
  "Highlight any double gameweeks expected around Gameweek 12.",
  "Identify clubs facing strong opposition three weeks in a row.",
  "Compare fixture difficulty for Spurs and Chelsea over the next month.",
  "Which promoted team has the softest autumn schedule?",
  "Flag a window to target Liverpool assets based on fixtures.",
  "When do Manchester United fixtures turn positive again?"
]

def comparison_pairs : List (String × String × String) := [
  ("Saka", "Foden", "midfield pick"),
  ("Watkins", "Isak", "forward slot"),
  ("Palmer", "Gordon", "mid-price midfielder"),
  ("Gabriel", "Botman", "defender value"),
  ("Areola", "Flekken", "budget keeper"),
  ("Toney", "Solanke", "striker differential"),
  ("Diaz", "Kulusevski", "midfield punt"),
  ("Mitoma", "Bailey", "fixture run"),
  ("Trippier", "Pedro Porro", "premium defender"),
  ("Gross", "Eze", "set-piece reliability")
]

def injury_checks : List String := [
  "Is Darwin Nunez likely to start this week after recent knocks?",
  "Update me on Wilson\x27s hamstring status before the weekend.",
  "Is Martinelli expected back in training for the next fixture?",
  "What is the outlook on Reece James minutes after his return?",
  "Should I worry about Saka\x27s minor knock from last match?",
  "Is Luke Shaw close to full fitness for Manchester United?",
  "Provide the latest on Evan Ferguson\x27s availability.",
  "Any setback for Matty Cash after his midweek appearance?"
]

def differential_hunts : List String := [
  "Suggest under 10 percent owned midfielders with upside.",
  "Name a differential forward with good xG in the next month.",
  "List defensive punts who cover clean sheets and attacking threat.",
  "Identify low-owned captain punts for a high-risk week.",
  "Spot hidden gems from promoted teams worth short term investment.",
  "Which bench enablers could explode during festive congestion?",
  "Find differentials for managers chasing in mini-leagues.",
  "Target sub 5 percent owned assets that align with fixture swings."
]

def budget_management : List String := [
  "Help me stretch a 100.5 million budget without sacrificing premiums.",
  "How can I rebalance funds from defence to attack efficiently?",
  "Is it viable to go without Haaland and spread cash elsewhere?",
  "Advise on downgrading goalkeeper to free funds for midfield upgrade.",
  "Plan a two transfer sequence to fund a premium defender move.",
  "Suggest budget-friendly midfield rotations for autumn.",
  "Manage price drops after an early wildcard without losing value.",
  "What is the best way to bank cash for a future double gameweek?",
  "Should I chase team value rises aggressively right now?",
  "How much money should remain in the bank for flexibility?"
]

def risk_profiles : List String := [
  "Outline a conservative strategy to protect a narrow mini-league lead.",
  "Design an aggressive plan to climb 500k ranks quickly.",
  "How risky is it to triple up on one club\x27s attack right now?",
  "When is it smart to take a four point hit in the next month?",
  "Balance short term punts with long term structure for my squad.",
  "Should I mirror template teams or back contrarian picks?",
  "Quantify the risk of rolling transfers versus taking hits.",
  "Is it viable to captain a defender when chasing?",
  "How can I manage volatility during December fixture congestion?",
  "What risk profile suits an FPL manager targeting top 10k?"
]

def general_queries : List String := [
  "Summarise key talking points from the latest press conferences.",
  "Which stats should I monitor weekly to stay ahead?",
  "Give me a checklist for finalising my squad on deadline day.",
  "How should I plan around international breaks to avoid injuries?",
  "Share best practices for monitoring price changes daily.",
  "What are the biggest mistakes to avoid in the next five gameweeks?",
  "Explain how to integrate expected goals into my decisions.",
  "Provide advice for managing both FPL and Champions League fantasy.",
  "What late season tactics help secure mini-league wins?",
  "Offer tips for evaluating eye test versus data driven calls."
]

/-- The hundred question prompts of build_questions, assembled exactly as
src/scripts/run_ai_copilot_test.py does: each fixed group is mapped to
(category, prompt) pairs, the squad-analysis group numbering gameweeks as
`7 + (idx % 6)` with `idx` counting from 1. -/
def questionList : List (String × String) :=
  analysis_focus.enum.map
      (fun it => ("squad_analysis",
        "Analyze my squad with emphasis on " ++ it.2 ++ " ahead of Gameweek "
          ++ toString (7 + ((it.1 + 1) % 6)) ++ "."))
    ++ transfer_scenarios.map
      (fun it => ("transfer_strategy",
        "Help me " ++ it.1 ++ " and " ++ it.2.1 ++ " for " ++ it.2.2 ++ "."))
    ++ chip_scenarios.map (fun p => ("chip_strategy", p))
    ++ fixture_scenarios.map (fun p => ("fixture_analysis", p))
    ++ comparison_pairs.map
      (fun it => ("player_comparison",
        "Compare " ++ it.1 ++ " versus " ++ it.2.1 ++ " as my " ++ it.2.2 ++ "."))
    ++ injury_checks.map (fun p => ("injury_news", p))
    ++ differential_hunts.map (fun p => ("differentials", p))
    ++ budget_management.map (fun p => ("budgeting", p))
    ++ risk_profiles.map (fun p => ("risk_management", p))
    ++ general_queries.map (fun p => ("general_strategy", p))

/-- The question builder of src/scripts/run_ai_copilot_test.py: build the
fixed groups and raise ValueError unless exactly 100 questions were
produced (the error is modelled as the Except error case). -/
def build_questions : Except String (List (String × String)) :=
  if questionList.length ≠ 100 then
    Except.error ("Expected 100 questions, got " ++ toString questionList.length)
  else
    Except.ok questionList


/-- The first source pattern of the patch script (python variable `old`):
the CRLF-escaped currentSquad block the script searches for. -/
def oldPat : List Char := "const currentSquad = userSquad.picks.map(pick => \x7b\\r\\n      const player = allPlayers.find(p => p.id === pick.element);\\r\\n      if (!player) \x7b\\r\\n        console.warn(`[analysis] Player data missing for element $\x7bpick.element\x7d`);\\r\\n      \x7d\\r\\n\\r\\n      return \x7b\\r\\n        ...pick,\\r\\n        player,\\r\\n        sellPrice: (pick.selling_price || player?.now_cost || 0) / 10,\\r\\n      \x7d;\\r\\n    \x7d);".toList

/-- The replacement for the first pattern (python variable `new`): the same
block with real newlines. -/
def newPat : List Char := "const currentSquad = userSquad.picks.map(pick => \x7b\n      const player = allPlayers.find(p => p.id === pick.element);\n      if (!player) \x7b\n        console.warn(`[analysis] Player data missing for element $\x7bpick.element\x7d`);\n      \x7d\n\n      return \x7b\n        ...pick,\n        player,\n        sellPrice: (pick.selling_price || player?.now_cost || 0) / 10,\n      \x7d;\n    \x7d);".toList

/-- The second source pattern of the patch script (python variable `old2`):
the CRLF-escaped bench split and empty-filteredSquad short-circuit. -/
def old2Pat : List Char := "const benchPlayers = filteredSquad.filter(p => p.position > 11);\\r\\n    const starterPlayers = filteredSquad.filter(p => p.position <= 11);\\r\\n\\r\\n    if (filteredSquad.length === 0) \x7b\\r\\n      return \x7b\\r\\n        bank,\\r\\n        teamValue,\\r\\n        freeTransfers,\\r\\n        nextDeadline,\\r\\n        maxPlayerPrice: bank,\\r\\n        benchUpgrades: [],\\r\\n        starterTargets: [],\\r\\n        riskAssessment: \"insufficient-data\",\\r\\n      \x7d;\\r\\n    \x7d".toList

/-- The replacement for the second pattern (python variable `new2`). -/
def new2Pat : List Char := "const benchPlayers = filteredSquad.filter(p => p.position > 11);\n    const starterPlayers = filteredSquad.filter(p => p.position <= 11);\n\n    if (filteredSquad.length === 0) \x7b\n      return \x7b\n        bank,\n        teamValue,\n        freeTransfers,\n        nextDeadline,\n        maxPlayerPrice: bank,\n        benchUpgrades: [],\n        starterTargets: [],\n        riskAssessment: \"insufficient-data\",\n      \x7d;\n    \x7d".toList

/-- The third source pattern of the patch script (python variable `old3`):
the maxSellValue line, replaced by itself. -/
def old3Pat : List Char := "const maxSellValue = Math.max(...filteredSquad.map(p => p.sellPrice));".toList

/-- Python `str.replace`: scan left to right, replacing each
non-overlapping occurrence of `a` by `b` (for non-empty `a`; the script's
patterns are all non-empty). -/
def replaceAll (a b : List Char) : List Char → List Char
  | [] => []
  | c :: rest =>
    if h : a ≠ [] ∧ a <+: (c :: rest) then
      b ++ replaceAll a b (List.drop a.length (c :: rest))
    else
      c :: replaceAll a b rest
termination_by s => s.length
decreasing_by
  · have ha : 0 < a.length := List.length_pos.mpr h.1
    simp
    omega
  · simp

/-- Split an occurrence of a prefix across an append: a prefix of `b ++ X`
either stays inside `b` or swallows all of `b` and continues as a prefix
of `X`. -/
theorem prefix_append_split {x b X : List Char} (h : x <+: b ++ X) :
    x <+: b ∨ (b <+: x ∧ x.drop b.length <+: X) := by
  rcases le_or_lt x.length b.length with hle | hlt
  · exact Or.inl ( List.prefix_of_prefix_length_le h ( List.prefix_append b X) hle)
  · have hb : b <+: x := List.prefix_of_prefix_length_le ( List.prefix_append b X) h (Nat.le_of_lt hlt)
    refine Or.inr ⟨hb, ?_⟩
    obtain ⟨t, ht⟩ := hb
    have hdrop : x.drop b.length = t := by rw [← ht, List.drop_left]
    rw [hdrop]
    rw [← ht] at h
    exact ( List.prefix_append_right_inj b).mp h

/-- Split an occurrence of an infix across an append: an infix of `b ++ Y`
lies inside `b`, lies inside `Y`, or crosses the boundary, in which case a
non-trivial prefix of it is a suffix of `b` and the rest is a prefix of
`Y`. -/
theorem infix_append_split {p b Y : List Char} (h : p <:+: b ++ Y) :
    p <:+: b ∨ p <:+: Y ∨
      ∃ j, 0 < j ∧ j < p.length ∧ j ≤ b.length ∧ p.take j = b.drop (b.length - j) ∧
        p.drop j <+: Y := by
  obtain ⟨s, t, hst⟩ := h
  rw [List.append_assoc] at hst
  rcases List.append_eq_append_iff.mp hst with ⟨w, ha1, ha2⟩ | ⟨c, hc1, hc2⟩
  · rcases List.append_eq_append_iff.mp ha2 with ⟨q, hp1, hp2⟩ | ⟨w2, hw1, hw2⟩
    · left
      exact ⟨s, q, by rw [ha1, hp1, List.append_assoc]⟩
    · rcases eq_or_ne w [] with rfl | hw
      · right; left
        refine ⟨[], t, ?_⟩
        simp only [List.nil_append] at hw1 ⊢
        rw [hw1]
        exact hw2.symm
      · rcases eq_or_ne w2 [] with rfl | hw2ne
        · left
          refine ⟨s, [], ?_⟩
          simp only [List.append_nil] at hw1 ⊢
          rw [hw1, ha1]
        · right; right
          have hblen : b.length = s.length + w.length := by rw [ha1]; simp
          refine ⟨w.length, List.length_pos.mpr hw, ?_, by omega, ?_, ?_⟩
          · rw [hw1, List.length_append]
            have := List.length_pos.mpr hw2ne
            omega
          · rw [hw1, List.take_left]
            have hsw : b.length - w.length = s.length := by omega
            rw [hsw, ha1, List.drop_left]
          · rw [hw1, List.drop_left]
            exact ⟨t, hw2.symm⟩
  · right; left
    refine ⟨c, t, ?_⟩
    rw [List.append_assoc]
    exact hc2.symm

/-- If no suffix of `p` (except `p` itself and the empty one) is a prefix
of the replacement `b`, `p` is not inside `b` and `b` is not inside `p`,
then a suffix of `p` that appears as a prefix of a replaced text already
appears as a prefix of the original text: a match running through original
characters can never continue into an inserted copy of `b`. -/
theorem drop_prefix_replaceAll {a b p : List Char}
    (hpb : ¬ p <:+: b) (hbp : ¬ b <:+: p)
    (hdrop : ∀ k, 0 < k → k < p.length → ¬ p.drop k <+: b) :
    ∀ s, ∀ k, k ≤ p.length → p.drop k <+: replaceAll a b s → p.drop k <+: s := by
  intro s
  induction s using replaceAll.induct a b with
  | case1 =>
    intro k hk h
    simp only [replaceAll] at h
    have hnil := List.prefix_nil.mp h
    simp [hnil]
  | case2 c rest hcond ih =>
    intro k hk h
    simp only [replaceAll, dif_pos hcond] at h
    rcases eq_or_ne (p.drop k) [] with hnil | hne
    · simp [hnil]
    · rcases prefix_append_split h with hb | ⟨hbx, _⟩
      · rcases Nat.eq_zero_or_pos k with rfl | hkpos
        · rw [List.drop_zero] at hb
          exact absurd ( List.IsPrefix.isInfix hb) hpb
        · rcases lt_or_eq_of_le hk with hlt | heq
          · exact absurd hb (hdrop k hkpos hlt)
          · exact absurd (by simp [heq]) hne
      · have hsuf : p.drop k <:+ p := List.drop_suffix k p
        exact absurd ( List.IsInfix.trans ( List.IsPrefix.isInfix hbx) ( List.IsSuffix.isInfix hsuf)) hbp
  | case3 c rest hcond ih =>
    intro k hk h
    simp only [replaceAll, dif_neg hcond] at h
    rcases eq_or_ne (p.drop k) [] with hnil | hne
    · simp [hnil]
    · have hklt : k < p.length := by
        rcases lt_or_eq_of_le hk with hlt | heq
        · exact hlt
        · exact absurd (by simp [heq]) hne
      rw [List.drop_eq_getElem_cons hklt] at h ⊢
      rcases List.cons_prefix_cons.mp h with ⟨hhead, htail⟩
      have := ih (k + 1) hklt htail
      exact List.cons_prefix_cons.mpr ⟨hhead, this⟩

/-- No-introduction property of `replaceAll`: when the boundary-overlap
side conditions between `p` and the replacement `b` all fail, replacing
`a` by `b` can never create a new occurrence of `p`, so an occurrence of
`p` in the output was already present in the input. -/
theorem infix_replaceAll {a b p : List Char}
    (hpb : ¬ p <:+: b) (hbp : ¬ b <:+: p)
    (hdrop : ∀ k, 0 < k → k < p.length → ¬ p.drop k <+: b)
    (hcross : ∀ j, 0 < j → j < p.length → j ≤ b.length → p.take j ≠ b.drop (b.length - j)) :
    ∀ s, p <:+: replaceAll a b s → p <:+: s := by
  intro s
  induction s using replaceAll.induct a b with
  | case1 =>
    intro h
    simpa [replaceAll] using h
  | case2 c rest hcond ih =>
    intro h
    simp only [replaceAll, dif_pos hcond] at h
    rcases infix_append_split h with h1 | h1 | ⟨j, hj0, hjp, hjb, htake, _⟩
    · exact absurd h1 hpb
    · have hsuf : List.drop a.length (c :: rest) <:+ c :: rest := List.drop_suffix _ _
      exact List.IsInfix.trans (ih h1) ( List.IsSuffix.isInfix hsuf)
    · exact absurd htake (hcross j hj0 hjp hjb)
  | case3 c rest hcond ih =>
    intro h
    simp only [replaceAll, dif_neg hcond] at h
    rcases List.infix_cons_iff.mp h with hpre | hinf
    · rcases eq_or_ne p [] with rfl | hne
      · exact List.nil_infix
      · have hplen : 0 < p.length := List.length_pos.mpr hne
        rw [← List.take_append_drop 1 p] at hpre ⊢
        have h1 : p.take 1 = [p[0]] := by
          rw [List.take_one]
          rcases p with _ | ⟨x, xs⟩
          · simp at hplen
          · simp
        rw [h1] at hpre ⊢
        rw [List.singleton_append] at hpre ⊢
        rcases List.cons_prefix_cons.mp hpre with ⟨hhead, htail⟩
        have := drop_prefix_replaceAll hpb hbp hdrop rest 1 hplen htail
        exact List.IsPrefix.isInfix ( List.cons_prefix_cons.mpr ⟨hhead, this⟩)
    · have hsuf : rest <:+ c :: rest := List.suffix_cons c rest
      exact List.IsInfix.trans (ih hinf) ( List.IsSuffix.isInfix hsuf)

/-- The outcome of running the patch script on a given target file text:
`exited` models `raise SystemExit(msg)` with no write, `wrote` models
`path.write_text(content)` at the end of the script. -/
inductive ScriptOutcome where
  | exited (msg : String)
  | wrote (content : List Char)
deriving DecidableEq

/-- The patch script src/fix_analysis_block.py: check and apply the three
pattern replacements in order, exiting via SystemExit before any write
when a check fails; the file is written once, after the third
replacement.  Python substring containment `old in text` is the infix
relation, `str.replace` is `replaceAll` (the third call replaces `old3`
by itself). -/
def fix_analysis_block (text : List Char) : ScriptOutcome :=
  if ¬ (oldPat <:+: text) then .exited "pattern not found for currentSquad"
  else
    let t1 := replaceAll oldPat newPat text
    if ¬ (old2Pat <:+: t1) then .exited "pattern not found for benchPlayers"
    else
      let t2 := replaceAll old2Pat new2Pat t1
      if ¬ (old3Pat <:+: t2) then .exited "pattern not found for maxSellValue"
      else .wrote (replaceAll old3Pat old3Pat t2)

/-- The content of the target file after the script runs: unchanged when
the script exited, the written content otherwise. -/
def finalContent (text : List Char) : List Char :=
  match fix_analysis_block text with
  | .exited _ => text
  | .wrote c => c


/-- Whether `jsOrNat (some y) 0` collapses to `y` whatever `y` is. -/
theorem jsOrNat_some_zero (y : Nat) : jsOrNat (some y) 0 = y := by
  simp only [jsOrNat]
  split <;> omega

/-- C1: for every SquadPick the computed sell price follows the resolution
order — a present non-zero selling-price override wins regardless of the
player's current price, otherwise a resolved player's current price is
used, otherwise the sell price is zero.  Stated in tenths together with
the TypeScript `/ 10` display form. -/
theorem sellPrice_resolution_order :
    (∀ (allPlayers : List Player) (pk : SquadPick) (s : Nat),
        pk.selling_price = some s → s ≠ 0 →
        (resolvePick allPlayers pk).sellPrice = s ∧
        toCurrency (resolvePick allPlayers pk).sellPrice = (s : ℚ) / 10) ∧
    (∀ (allPlayers : List Player) (pk : SquadPick) (pl : Player),
        (pk.selling_price = none ∨ pk.selling_price = some 0) →
        allPlayers.find? (fun p => p.id == pk.element) = some pl →
        (resolvePick allPlayers pk).sellPrice = pl.now_cost ∧
        toCurrency (resolvePick allPlayers pk).sellPrice = (pl.now_cost : ℚ) / 10) ∧
    (∀ (allPlayers : List Player) (pk : SquadPick),
        (pk.selling_price = none ∨ pk.selling_price = some 0) →
        allPlayers.find? (fun p => p.id == pk.element) = none →
        (resolvePick allPlayers pk).sellPrice = 0) := by
  refine ⟨?_, ?_, ?_⟩
  · intro ap pk s h1 h2
    have hs : (resolvePick ap pk).sellPrice = s := by
      simp [resolvePick, sellPriceTenths, jsOrNat, h1, h2]
    exact ⟨hs, by rw [hs, toCurrency]⟩
  · intro ap pk pl hsp hfind
    have hs : (resolvePick ap pk).sellPrice = pl.now_cost := by
      rcases hsp with h | h <;>
        simp [resolvePick, sellPriceTenths, jsOrNat, h, hfind, jsOrNat_some_zero] <;>
        omega
    exact ⟨hs, by rw [hs, toCurrency]⟩
  · intro ap pk hsp hfind
    rcases hsp with h | h <;>
      simp [resolvePick, sellPriceTenths, jsOrNat, h, hfind]

/-- A sample catalog player used by the concrete witnesses. -/
def wPlayer : Player :=
  { id := 7, now_cost := 55, element_type := 3, team := 2, form := 4,
    fixtures := [2, 3, 4], ownership := 120 }

/-- A sample pick with a non-zero selling-price override. -/
def wPickOverride : SquadPick :=
  { element := 7, position := 1, selling_price := some 42, is_captain := false }

/-- A sample pick with no override whose player resolves. -/
def wPickPlain : SquadPick :=
  { element := 7, position := 2, selling_price := none, is_captain := true }

/-- A sample pick whose player is missing from the catalog. -/
def wPickMissing : SquadPick :=
  { element := 9, position := 12, selling_price := none, is_captain := false }

/-- Witness for C1: the three branches of the resolution order evaluated on
concrete picks — override 42 wins over price 55, the plain pick sells at
the player's 55, the unresolvable pick sells at 0. -/
theorem sellPrice_resolution_order_witness :
    (wPickOverride.selling_price = some 42 ∧ (42 : Nat) ≠ 0 ∧
      (resolvePick [wPlayer] wPickOverride).sellPrice = 42) ∧
    ((wPickPlain.selling_price = none ∨ wPickPlain.selling_price = some 0) ∧
      [wPlayer].find? (fun p => p.id == wPickPlain.element) = some wPlayer ∧
      (resolvePick [wPlayer] wPickPlain).sellPrice = 55) ∧
    ((wPickMissing.selling_price = none ∨ wPickMissing.selling_price = some 0) ∧
      [wPlayer].find? (fun p => p.id == wPickMissing.element) = none ∧
      (resolvePick [wPlayer] wPickMissing).sellPrice = 0) :=
  ⟨⟨rfl, by decide,
      (sellPrice_resolution_order.1 [wPlayer] wPickOverride 42 rfl (by decide)).1⟩,
    ⟨Or.inl rfl, by decide,
      (sellPrice_resolution_order.2.1 [wPlayer] wPickPlain wPlayer (Or.inl rfl) (by decide)).1⟩,
    ⟨Or.inl rfl, by decide,
      sellPrice_resolution_order.2.2 [wPlayer] wPickMissing (Or.inl rfl) (by decide)⟩⟩

/-- C2: when the usable squad is empty the Valuation & Budget Calculator
short-circuits to exactly the minimal insufficient-data result, with
`maxPlayerPrice = bank` and empty recommendation lists, running no
recommendation or risk logic. -/
theorem empty_filteredSquad_short_circuit :
    ∀ (resolved : List ResolvedPick) (catalog : List Player)
      (bank freeTransfers nextDeadline : Nat),
      filteredSquad resolved = [] →
      compute resolved catalog bank freeTransfers nextDeadline =
        { bank := bank
          teamValue := teamValue resolved
          freeTransfers := freeTransfers
          nextDeadline := nextDeadline
          maxPlayerPrice := bank
          benchUpgrades := []
          starterTargets := []
          riskAssessment := .insufficientData } := by
  intro resolved catalog bank ft nd h
  simp [compute, h]

/-- Witness for C2: the empty picks list short-circuits and in particular
`maxPlayerPrice` equals the bank. -/
theorem empty_filteredSquad_short_circuit_witness :
    filteredSquad ([] : List ResolvedPick) = [] ∧
    (compute [] [] 5 2 3).maxPlayerPrice = 5 ∧
    compute [] [] 5 2 3 =
      { bank := 5, teamValue := 0, freeTransfers := 2, nextDeadline := 3,
        maxPlayerPrice := 5, benchUpgrades := [], starterTargets := [],
        riskAssessment := .insufficientData } :=
  ⟨rfl, by rw [empty_filteredSquad_short_circuit [] [] 5 2 3 rfl],
    empty_filteredSquad_short_circuit [] [] 5 2 3 rfl⟩


/-- C3: on a non-empty usable squad the affordability ceiling is the bank
plus the single largest sell price, stated in tenths together with the
display-unit form. -/
theorem maxPlayerPrice_bank_plus_max_sell :
    ∀ (resolved : List ResolvedPick) (catalog : List Player)
      (bank freeTransfers nextDeadline : Nat) (p : ResolvedPick),
      p ∈ filteredSquad resolved →
      (∀ q ∈ filteredSquad resolved, q.sellPrice ≤ p.sellPrice) →
      (compute resolved catalog bank freeTransfers nextDeadline).maxPlayerPrice
          = bank + p.sellPrice ∧
      toCurrency (compute resolved catalog bank freeTransfers nextDeadline).maxPlayerPrice
          = toCurrency bank + toCurrency p.sellPrice := by
  intro resolved catalog bank ft nd p hmem hub
  have hne : ¬ (filteredSquad resolved).isEmpty = true := by
    intro hemp
    rw [List.isEmpty_iff] at hemp
    rw [hemp] at hmem
    simp at hmem
  have hmax : ((filteredSquad resolved).map (·.sellPrice)).maximum = (p.sellPrice : ℕ) := by
    refine List.maximum_eq_coe_iff.mpr ⟨List.mem_map_of_mem _ hmem, ?_⟩
    intro a ha
    obtain ⟨q, hq, rfl⟩ := List.mem_map.mp ha
    exact hub q hq
  have hval : maxSellValue (filteredSquad resolved) = p.sellPrice := by
    rw [maxSellValue, hmax]
    rfl
  have hmain :
      (compute resolved catalog bank ft nd).maxPlayerPrice = bank + p.sellPrice := by
    simp only [compute, if_neg hne]
    rw [hval]
  refine ⟨hmain, ?_⟩
  rw [hmain, toCurrency, toCurrency, toCurrency]
  push_cast
  ring

/-- The spec scenario catalog: fifteen resolvable players; player 15 is a
bench goalkeeper priced 4.0 (40 tenths), the most valuable asset. -/
def wCatalog15 : List Player :=
  [⟨1, 39, 1, 1, 3, [2, 3], 50⟩, ⟨2, 30, 2, 1, 2, [3, 3], 40⟩,
   ⟨3, 31, 2, 2, 1, [2, 2], 30⟩, ⟨4, 32, 2, 3, 4, [4, 2], 20⟩,
   ⟨5, 33, 2, 4, 2, [1, 2], 10⟩, ⟨6, 28, 3, 5, 5, [2, 5], 60⟩,
   ⟨7, 27, 3, 6, 6, [3, 1], 70⟩, ⟨8, 26, 3, 7, 1, [2, 2], 15⟩,
   ⟨9, 25, 3, 8, 2, [4, 4], 25⟩, ⟨10, 24, 4, 9, 7, [2, 3], 35⟩,
   ⟨11, 23, 4, 10, 3, [3, 2], 45⟩, ⟨12, 22, 4, 11, 2, [2, 4], 55⟩,
   ⟨13, 21, 2, 12, 1, [5, 2], 65⟩, ⟨14, 20, 3, 13, 2, [2, 2], 75⟩,
   ⟨15, 40, 1, 14, 1, [3, 3], 85⟩]

/-- The spec scenario picks: slots 1-15 in order, no overrides; slot 15 is
the bench goalkeeper with the maximal sell price. -/
def wPicks15 : List SquadPick :=
  [⟨1, 1, none, false⟩, ⟨2, 2, none, false⟩, ⟨3, 3, none, false⟩,
   ⟨4, 4, none, false⟩, ⟨5, 5, none, false⟩, ⟨6, 6, none, false⟩,
   ⟨7, 7, none, true⟩, ⟨8, 8, none, false⟩, ⟨9, 9, none, false⟩,
   ⟨10, 10, none, false⟩, ⟨11, 11, none, false⟩, ⟨12, 12, none, false⟩,
   ⟨13, 13, none, false⟩, ⟨14, 14, none, false⟩, ⟨15, 15, none, false⟩]

/-- The resolved spec scenario squad. -/
def wSquad15 : List ResolvedPick := currentSquad wCatalog15 wPicks15

/-- The resolved bench goalkeeper, the most valuable sellable asset of the
scenario. -/
def wMaxPick : ResolvedPick := resolvePick wCatalog15 ⟨15, 15, none, false⟩

/-- Witness for C3: the spec scenario — 15 resolvable picks, bank 2.0
(20 tenths), maximal sell price 4.0 (40 tenths) — yields
`maxPlayerPrice` 6.0 (60 tenths). -/
theorem maxPlayerPrice_bank_plus_max_sell_witness :
    wMaxPick ∈ filteredSquad wSquad15 ∧
    (∀ q ∈ filteredSquad wSquad15, q.sellPrice ≤ wMaxPick.sellPrice) ∧
    (compute wSquad15 wCatalog15 20 1 0).maxPlayerPrice = 60 ∧
    toCurrency (compute wSquad15 wCatalog15 20 1 0).maxPlayerPrice
      = toCurrency 20 + toCurrency 40 :=
  ⟨by decide, by decide,
    (maxPlayerPrice_bank_plus_max_sell wSquad15 wCatalog15 20 1 0 wMaxPick
      (by decide) (by decide)).1,
    (maxPlayerPrice_bank_plus_max_sell wSquad15 wCatalog15 20 1 0 wMaxPick
      (by decide) (by decide)).2⟩

/-- C4: a pick whose identifier has no catalog record is handled without
any failure path — the builder records the missing identifier as a
data-integrity warning, resolves the pick with `player` absent, computes
the sell price by the fallback order (override or zero), keeps the pick in
the squad (so its sell price still reaches the budget totals), and the
pick is excluded from the usable squad used for player-attribute
computations. -/
theorem missing_player_fallback :
    ∀ (allPlayers : List Player) (picks : List SquadPick) (pk : SquadPick),
      pk ∈ picks →
      allPlayers.find? (fun p => p.id == pk.element) = none →
      (resolvePick allPlayers pk).player = none ∧
      (resolvePick allPlayers pk).sellPrice = pk.selling_price.getD 0 ∧
      pk.element ∈ dataIntegrityWarnings allPlayers picks ∧
      resolvePick allPlayers pk ∈ currentSquad allPlayers picks ∧
      resolvePick allPlayers pk ∉ filteredSquad (currentSquad allPlayers picks) := by
  intro ap picks pk hmem hfind
  have hplayer : (resolvePick ap pk).player = none := by
    simp [resolvePick, hfind]
  refine ⟨hplayer, ?_, ?_, ?_, ?_⟩
  · rcases hsp : pk.selling_price with _ | v
    · simp [resolvePick, sellPriceTenths, jsOrNat, hfind, hsp]
    · rcases Nat.eq_zero_or_pos v with rfl | hv
      · simp [resolvePick, sellPriceTenths, jsOrNat, hfind, hsp]
      · simp [resolvePick, sellPriceTenths, jsOrNat, hfind, hsp,
          Nat.pos_iff_ne_zero.mp hv]
  · refine List.mem_map_of_mem _ ?_
    refine List.mem_filter.mpr ⟨hmem, ?_⟩
    simp [hfind]
  · exact List.mem_map_of_mem _ hmem
  · intro hin
    have := (List.mem_filter.mp hin).2
    rw [hplayer] at this
    simp at this

/-- Witness for C4: pick 9 is absent from the one-player catalog; the
builder warns, resolves it with no player and sell price 0, keeps it in
the squad, and excludes it from the usable squad. -/
theorem missing_player_fallback_witness :
    wPickMissing ∈ [wPickPlain, wPickMissing] ∧
    [wPlayer].find? (fun p => p.id == wPickMissing.element) = none ∧
    (resolvePick [wPlayer] wPickMissing).player = none ∧
    (resolvePick [wPlayer] wPickMissing).sellPrice = 0 ∧
    wPickMissing.element ∈ dataIntegrityWarnings [wPlayer] [wPickPlain, wPickMissing] ∧
    resolvePick [wPlayer] wPickMissing ∈ currentSquad [wPlayer] [wPickPlain, wPickMissing] ∧
    resolvePick [wPlayer] wPickMissing ∉
      filteredSquad (currentSquad [wPlayer] [wPickPlain, wPickMissing]) := by
  have h := missing_player_fallback [wPlayer] [wPickPlain, wPickMissing] wPickMissing
    (by decide) (by decide)
  exact ⟨by decide, by decide, h.1, h.2.1, h.2.2.1, h.2.2.2.1, h.2.2.2.2⟩


/-- Removing a squad member never increases any club's count. -/
theorem clubCount_erase_le (squad : List ResolvedPick) (r : ResolvedPick) (t : Nat) :
    clubCount (squad.erase r) t ≤ clubCount squad t := by
  apply List.Sublist.count_le
  apply List.Sublist.map
  apply List.Sublist.filterMap
  exact List.erase_sublist r squad

/-- C5: every emitted recommendation entry is affordable under
`maxPlayerPrice`, position-legal, and club-cap-legal (accepting the swap
never pushes a club's post-swap count above the cap unless it already
exceeded it before the swap), and when no legal improvement exists the
lists are present and empty, not omitted. -/
theorem recommendation_legality :
    ∀ (squad : List ResolvedPick) (catalog : List Player) (maxPlayerPrice : Nat),
      (∀ e, (e ∈ (generate squad catalog maxPlayerPrice).1 ∨
              e ∈ (generate squad catalog maxPlayerPrice).2) →
        e.incoming.now_cost ≤ maxPlayerPrice ∧
        (∃ op, e.outgoing.player = some op ∧ e.incoming.element_type = op.element_type) ∧
        (∀ t, clubCount (squad.erase e.outgoing) t
                + (if e.incoming.team = t then 1 else 0)
              ≤ max (clubCount squad t) concentrationThreshold)) ∧
      ((∀ r ∈ squad, legalCandidates catalog squad maxPlayerPrice r = []) →
        generate squad catalog maxPlayerPrice = ([], [])) := by
  intro squad catalog mpp
  constructor
  · intro e he
    have hlegal : ∃ outP, outP ∈ squad ∧ ∃ c,
        c ∈ legalCandidates catalog squad mpp outP ∧
        e = ⟨outP, c, (c.now_cost : Int) - (outP.sellPrice : Int)⟩ := by
      rcases he with he | he <;>
      · obtain ⟨outP, houtP, hbest⟩ := List.mem_filterMap.mp he
        obtain ⟨c, hargmax, hceq⟩ := Option.map_eq_some'.mp hbest
        refine ⟨outP, (List.mem_filter.mp houtP).1, c, ?_, hceq.symm⟩
        exact List.argmax_mem (Option.mem_def.mpr hargmax)
    obtain ⟨outP, houtmem, c, hcand, rfl⟩ := hlegal
    obtain ⟨hcat, hleg⟩ := List.mem_filter.mp hcand
    rw [isLegalCandidate] at hleg
    simp only [Bool.and_eq_true, decide_eq_true_eq, Bool.not_eq_true] at hleg
    obtain ⟨⟨⟨hprice, hpos⟩, hnotin⟩, hcap⟩ := hleg
    refine ⟨hprice, ?_, ?_⟩
    · rcases hop : outP.player with _ | op
      · rw [positionMatches, hop] at hpos
        simp at hpos
      · rw [positionMatches, hop] at hpos
        exact ⟨op, rfl, by simpa using hpos⟩
    · intro t
      rw [clubCapRoom] at hcap
      simp only [decide_eq_true_eq] at hcap
      by_cases ht : c.team = t
      · subst ht
        simp only [if_pos rfl]
        calc clubCount (squad.erase outP) c.team + 1 ≤ concentrationThreshold := hcap
          _ ≤ max (clubCount squad c.team) concentrationThreshold := le_max_right _ _
      · simp only [if_neg ht, Nat.add_zero]
        calc clubCount (squad.erase outP) t ≤ clubCount squad t := clubCount_erase_le _ _ _
          _ ≤ max (clubCount squad t) concentrationThreshold := le_max_left _ _
  · intro hempty
    have hb : ∀ (sc : Player → Int) (r : ResolvedPick), r ∈ squad →
        bestUpgradeFor catalog squad mpp sc r = none := by
      intro sc r hr
      rw [bestUpgradeFor, hempty r hr]
      rfl
    have h1 : (benchPlayers squad).filterMap (bestUpgradeFor catalog squad mpp benchScore)
        = [] :=
      List.filterMap_eq_nil_iff.mpr (fun a ha => hb _ a ((List.mem_filter.mp ha).1))
    have h2 : (starterPlayers squad).filterMap (bestUpgradeFor catalog squad mpp starterScore)
        = [] :=
      List.filterMap_eq_nil_iff.mpr (fun a ha => hb _ a ((List.mem_filter.mp ha).1))
    rw [generate, h1, h2]

/-- The outgoing bench player of the C5 witness scenario. -/
def wOutPlayer : Player := ⟨20, 30, 2, 3, 2, [3, 2], 12⟩

/-- The resolved outgoing bench pick of the C5 witness scenario. -/
def wOutPick : ResolvedPick := resolvePick [wOutPlayer] ⟨20, 12, none, false⟩

/-- The legal incoming candidate of the C5 witness scenario: same position
class, different club, affordable at 35 tenths. -/
def wCandidate : Player := ⟨21, 35, 2, 4, 9, [1, 1, 1], 10⟩

/-- The catalog of the C5 witness scenario. -/
def wRecCatalog : List Player := [wOutPlayer, wCandidate]

/-- The upgrade entry the generator emits in the C5 witness scenario. -/
def wUpgrade : Upgrade := ⟨wOutPick, wCandidate, 5⟩

/-- Witness for C5: the emitted bench upgrade of a concrete scenario is
affordable, position-legal and club-cap-legal. -/
theorem recommendation_legality_witness :
    (wUpgrade ∈ (generate [wOutPick] wRecCatalog 40).1 ∨
      wUpgrade ∈ (generate [wOutPick] wRecCatalog 40).2) ∧
    wUpgrade.incoming.now_cost ≤ 40 ∧
    (∃ op, wUpgrade.outgoing.player = some op ∧
      wUpgrade.incoming.element_type = op.element_type) ∧
    (∀ t, clubCount ([wOutPick].erase wUpgrade.outgoing) t
            + (if wUpgrade.incoming.team = t then 1 else 0)
          ≤ max (clubCount [wOutPick] t) concentrationThreshold) :=
  ⟨Or.inl (by decide),
    ((recommendation_legality [wOutPick] wRecCatalog 40).1 wUpgrade
      (Or.inl (by decide))).1,
    ((recommendation_legality [wOutPick] wRecCatalog 40).1 wUpgrade
      (Or.inl (by decide))).2.1,
    ((recommendation_legality [wOutPick] wRecCatalog 40).1 wUpgrade
      (Or.inl (by decide))).2.2⟩


/-- The C6 witness reading: an answer text containing the garbled currency
sequence. -/
def wGarbledReading : AnswerReading :=
  { text := "Â£12.3m".toList, mentionedNames := [], mentionedGameweeks := [],
    priceRequested := false }

/-- C6: any answer text containing the mis-encoded multi-byte currency
sequence is rejected by the Grounding Validator with a currency-encoding
violation, never passed through. -/
theorem validator_rejects_garbled_currency :
    ∀ (reading : AnswerReading) (licensedNames : List String) (windowLo windowHi : Nat),
      hasGarbledCurrency reading.text = true →
      (validate reading licensedNames windowLo windowHi).accepted = false ∧
      ViolationKind.currencyEncoding ∈
        (validate reading licensedNames windowLo windowHi).violations := by
  intro r names lo hi h
  have hmem : ViolationKind.currencyEncoding ∈
      (validate r names lo hi).violations := by
    simp [validate, h]
  refine ⟨?_, hmem⟩
  have hacc : (validate r names lo hi).accepted
      = (validate r names lo hi).violations.isEmpty := rfl
  rw [hacc]
  rcases hvl : (validate r names lo hi).violations with _ | ⟨x, xs⟩
  · rw [hvl] at hmem
    simp at hmem
  · simp

/-- Witness for C6: the spec scenario text "A-circumflex pound 12.3m" is
rejected with a currency-encoding violation. -/
theorem validator_rejects_garbled_currency_witness :
    hasGarbledCurrency wGarbledReading.text = true ∧
    (validate wGarbledReading [] 7 12).accepted = false ∧
    ViolationKind.currencyEncoding ∈ (validate wGarbledReading [] 7 12).violations :=
  ⟨by decide,
    (validator_rejects_garbled_currency wGarbledReading [] 7 12 (by decide)).1,
    (validator_rejects_garbled_currency wGarbledReading [] 7 12 (by decide)).2⟩

/-- On a non-empty squad the label rank is a monotone function of the risk
score: score 0 is low, 1 is medium, 2 or more is high. -/
theorem labelRank_assess (squad : List ResolvedPick) (h : squad.isEmpty = false) :
    labelRank (assess squad) = min (riskScore squad) 2 + 1 := by
  rw [assess, if_neg (by simp [h])]
  by_cases h0 : riskScore squad = 0
  · simp [h0, labelRank]
  · by_cases h1 : riskScore squad = 1
    · simp [h0, h1, labelRank]
    · simp only [if_neg h0, if_neg h1, labelRank]
      omega

/-- C7: the Risk Assessor is a total pure function of the usable squad (it
is a Lean function, so totality and input determinism are structural), and
its label is monotone in the risk signals: adding concentration or
clustering risk while the bench-depth signal is held fixed never lowers
the label. -/
theorem assess_monotone :
    ∀ (s t : List ResolvedPick),
      s.isEmpty = false → t.isEmpty = false →
      (concentrationRisk s = true → concentrationRisk t = true) →
      (clusteringRisk s = true → clusteringRisk t = true) →
      benchDepthRisk s = benchDepthRisk t →
      labelRank (assess s) ≤ labelRank (assess t) := by
  intro s t hs ht hc hf hb
  rw [labelRank_assess s hs, labelRank_assess t ht]
  have h1 : (if concentrationRisk s then 1 else 0)
      ≤ (if concentrationRisk t then (1 : Nat) else 0) := by
    cases hcs : concentrationRisk s
    · simp
    · rw [hc hcs]
  have h2 : (if clusteringRisk s then 1 else 0)
      ≤ (if clusteringRisk t then (1 : Nat) else 0) := by
    cases hcs : clusteringRisk s
    · simp
    · rw [hf hcs]
  have h3 : (if benchDepthRisk s then 1 else 0)
      = (if benchDepthRisk t then (1 : Nat) else 0) := by rw [hb]
  simp only [riskScore]
  omega

/-- A one-member low-signal squad for the C7 witness. -/
def wRiskSquadS : List ResolvedPick :=
  [⟨1, 1, none, false, some ⟨1, 30, 2, 1, 1, [2], 5⟩, 30⟩]

/-- A four-member squad of the C7 witness with four picks of one club,
which adds concentration risk while keeping the other signals as in
`wRiskSquadS`. -/
def wRiskSquadT : List ResolvedPick :=
  [⟨1, 1, none, false, some ⟨1, 30, 2, 1, 1, [2], 5⟩, 30⟩,
   ⟨2, 2, none, false, some ⟨2, 31, 2, 1, 1, [2], 5⟩, 31⟩,
   ⟨3, 3, none, false, some ⟨3, 32, 2, 1, 1, [2], 5⟩, 32⟩,
   ⟨4, 4, none, false, some ⟨4, 33, 3, 1, 1, [2], 5⟩, 33⟩]

/-- Witness for C7: adding concentration risk to a concrete squad while
holding the other signals fixed does not lower the label. -/
theorem assess_monotone_witness :
    wRiskSquadS.isEmpty = false ∧ wRiskSquadT.isEmpty = false ∧
    (concentrationRisk wRiskSquadS = true → concentrationRisk wRiskSquadT = true) ∧
    (clusteringRisk wRiskSquadS = true → clusteringRisk wRiskSquadT = true) ∧
    benchDepthRisk wRiskSquadS = benchDepthRisk wRiskSquadT ∧
    labelRank (assess wRiskSquadS) ≤ labelRank (assess wRiskSquadT) :=
  ⟨by decide, by decide, by decide, by decide, by decide,
    assess_monotone wRiskSquadS wRiskSquadT (by decide) (by decide) (by decide)
      (by decide) (by decide)⟩

/-- C8: team value is the plain sum of the resolved picks' sell prices
(unresolved picks contributing their zero/override fallback), so it is
invariant under any permutation of the picks list. -/
theorem teamValue_perm_invariant :
    ∀ (allPlayers : List Player) (picks1 picks2 : List SquadPick),
      picks1.Perm picks2 →
      teamValue (currentSquad allPlayers picks1)
        = (picks1.map (fun pk => (resolvePick allPlayers pk).sellPrice)).sum ∧
      teamValue (currentSquad allPlayers picks1)
        = teamValue (currentSquad allPlayers picks2) := by
  intro ap l1 l2 hperm
  constructor
  · rw [teamValue, currentSquad, List.map_map]
    rfl
  · rw [teamValue, teamValue]
    exact List.Perm.sum_eq ((hperm.map _).map _)

/-- Witness for C8: a concrete two-pick squad (one resolvable, one not)
keeps its team value when the picks are reordered. -/
theorem teamValue_perm_invariant_witness :
    ([wPickPlain, wPickMissing] : List SquadPick).Perm [wPickMissing, wPickPlain] ∧
    teamValue (currentSquad [wPlayer] [wPickPlain, wPickMissing])
      = teamValue (currentSquad [wPlayer] [wPickMissing, wPickPlain]) :=
  ⟨by decide,
    (teamValue_perm_invariant [wPlayer] [wPickPlain, wPickMissing]
      [wPickMissing, wPickPlain] (by decide)).2⟩


set_option maxRecDepth 100000

/-- The second pattern does not occur inside the first replacement. -/
theorem old2_new_no_contain : ¬ old2Pat <:+: newPat := by decide

/-- The first replacement does not occur inside the second pattern. -/
theorem new_no_contain_old2 : ¬ newPat <:+: old2Pat := by decide

/-- No proper suffix of the second pattern is a prefix of the first
replacement. -/
theorem old2_new_no_drop :
    ∀ k < old2Pat.length, 0 < k → ¬ List.drop k old2Pat <+: newPat := by decide

/-- No proper prefix of the second pattern is a suffix of the first
replacement. -/
theorem old2_new_no_cross :
    ∀ j < old2Pat.length, 0 < j → j ≤ newPat.length →
      List.take j old2Pat ≠ List.drop (newPat.length - j) newPat := by decide

/-- The third pattern does not occur inside the first replacement. -/
theorem old3_new_no_contain : ¬ old3Pat <:+: newPat := by decide

/-- The first replacement does not occur inside the third pattern. -/
theorem new_no_contain_old3 : ¬ newPat <:+: old3Pat := by decide

/-- No proper suffix of the third pattern is a prefix of the first
replacement. -/
theorem old3_new_no_drop :
    ∀ k < old3Pat.length, 0 < k → ¬ List.drop k old3Pat <+: newPat := by decide

/-- No proper prefix of the third pattern is a suffix of the first
replacement. -/
theorem old3_new_no_cross :
    ∀ j < old3Pat.length, 0 < j → j ≤ newPat.length →
      List.take j old3Pat ≠ List.drop (newPat.length - j) newPat := by decide

/-- The third pattern does not occur inside the second replacement. -/
theorem old3_new2_no_contain : ¬ old3Pat <:+: new2Pat := by decide

/-- The second replacement does not occur inside the third pattern. -/
theorem new2_no_contain_old3 : ¬ new2Pat <:+: old3Pat := by decide

/-- No proper suffix of the third pattern is a prefix of the second
replacement. -/
theorem old3_new2_no_drop :
    ∀ k < old3Pat.length, 0 < k → ¬ List.drop k old3Pat <+: new2Pat := by decide

/-- No proper prefix of the third pattern is a suffix of the second
replacement. -/
theorem old3_new2_no_cross :
    ∀ j < old3Pat.length, 0 < j → j ≤ new2Pat.length →
      List.take j old3Pat ≠ List.drop (new2Pat.length - j) new2Pat := by decide

/-- The first replacement never creates a new occurrence of the second
pattern. -/
theorem old2_not_introduced (s : List Char) (h : ¬ old2Pat <:+: s) :
    ¬ old2Pat <:+: replaceAll oldPat newPat s := fun hin =>
  h (infix_replaceAll old2_new_no_contain new_no_contain_old2
    (fun k hk0 hklt => old2_new_no_drop k hklt hk0)
    (fun j hj0 hjlt hjb => old2_new_no_cross j hjlt hj0 hjb) s hin)

/-- The first replacement never creates a new occurrence of the third
pattern. -/
theorem old3_not_introduced_first (s : List Char) (h : ¬ old3Pat <:+: s) :
    ¬ old3Pat <:+: replaceAll oldPat newPat s := fun hin =>
  h (infix_replaceAll old3_new_no_contain new_no_contain_old3
    (fun k hk0 hklt => old3_new_no_drop k hklt hk0)
    (fun j hj0 hjlt hjb => old3_new_no_cross j hjlt hj0 hjb) s hin)

/-- The second replacement never creates a new occurrence of the third
pattern. -/
theorem old3_not_introduced_second (s : List Char) (h : ¬ old3Pat <:+: s) :
    ¬ old3Pat <:+: replaceAll old2Pat new2Pat s := fun hin =>
  h (infix_replaceAll old3_new2_no_contain new2_no_contain_old3
    (fun k hk0 hklt => old3_new2_no_drop k hklt hk0)
    (fun j hj0 hjlt hjb => old3_new2_no_cross j hjlt hj0 hjb) s hin)

/-- C9: the patch script is atomic on error — for every input file text, if
any of the three required source patterns is absent it raises SystemExit
before the write, leaving the file content unchanged (the replacement
steps can never manufacture a missing pattern), and the file is written
only when all three checks succeeded, with the triple-replaced content. -/
theorem patch_script_atomic_on_error :
    ∀ text : List Char,
      ((¬ oldPat <:+: text ∨ ¬ old2Pat <:+: text ∨ ¬ old3Pat <:+: text) →
        (∃ msg, fix_analysis_block text = ScriptOutcome.exited msg) ∧
        finalContent text = text) ∧
      (∀ c, fix_analysis_block text = ScriptOutcome.wrote c →
        oldPat <:+: text ∧
        old2Pat <:+: replaceAll oldPat newPat text ∧
        old3Pat <:+: replaceAll old2Pat new2Pat (replaceAll oldPat newPat text) ∧
        c = replaceAll old3Pat old3Pat
              (replaceAll old2Pat new2Pat (replaceAll oldPat newPat text))) := by
  intro text
  by_cases ho : oldPat <:+: text
  · by_cases h2 : old2Pat <:+: replaceAll oldPat newPat text
    · by_cases h3 :
          old3Pat <:+: replaceAll old2Pat new2Pat (replaceAll oldPat newPat text)
      · have heq : fix_analysis_block text =
            ScriptOutcome.wrote (replaceAll old3Pat old3Pat
              (replaceAll old2Pat new2Pat (replaceAll oldPat newPat text))) := by
          simp [fix_analysis_block, ho, h2, h3]
        constructor
        · intro hdisj
          exfalso
          rcases hdisj with hd | hd | hd
          · exact hd ho
          · exact old2_not_introduced text hd h2
          · exact old3_not_introduced_second (replaceAll oldPat newPat text)
              (old3_not_introduced_first text hd) h3
        · intro c hc
          rw [heq] at hc
          refine ⟨ho, h2, h3, ?_⟩
          cases hc
          rfl
      · have heq : fix_analysis_block text =
            ScriptOutcome.exited "pattern not found for maxSellValue" := by
          simp [fix_analysis_block, ho, h2, h3]
        refine ⟨fun _ => ⟨⟨_, heq⟩, ?_⟩, fun c hc => ?_⟩
        · rw [finalContent, heq]
        · rw [heq] at hc
          cases hc
    · have heq : fix_analysis_block text =
          ScriptOutcome.exited "pattern not found for benchPlayers" := by
        simp [fix_analysis_block, ho, h2]
      refine ⟨fun _ => ⟨⟨_, heq⟩, ?_⟩, fun c hc => ?_⟩
      · rw [finalContent, heq]
      · rw [heq] at hc
        cases hc
  · have heq : fix_analysis_block text =
        ScriptOutcome.exited "pattern not found for currentSquad" := by
      simp [fix_analysis_block, ho]
    refine ⟨fun _ => ⟨⟨_, heq⟩, ?_⟩, fun c hc => ?_⟩
    · rw [finalContent, heq]
    · rw [heq] at hc
      cases hc

/-- Witness for C9: on the file text "x" the first pattern is absent, the
script exits via SystemExit and the file content is unchanged. -/
theorem patch_script_atomic_on_error_witness :
    (¬ oldPat <:+: "x".toList ∨ ¬ old2Pat <:+: "x".toList ∨
      ¬ old3Pat <:+: "x".toList) ∧
    (∃ msg, fix_analysis_block "x".toList = ScriptOutcome.exited msg) ∧
    finalContent "x".toList = "x".toList :=
  ⟨Or.inl (by decide),
    (patch_script_atomic_on_error "x".toList).1 (Or.inl (by decide))⟩

/-- C10: the question builder always produces exactly 100 category-prompt
pairs — the fixed group sizes sum to 100 — so the ValueError guard is
unreachable and the builder returns the list. -/
theorem build_questions_returns_100 :
    build_questions = Except.ok questionList ∧ questionList.length = 100 := by
  have hlen : questionList.length = 100 := by rfl
  constructor
  · rw [build_questions, if_neg (by rw [hlen]; decide)]
  · exact hlen

end FPL
